import Mathlib

/-!
Verification of `frontend/deploy.py` from the Linera-Poker repository.

The script runs an external deploy CLI as a child process, feeds it two
blank-line answers on stdin, echoes its combined output, highlights lines
that look like a deploy URL, and maps the child's exit code to its own.

We embed the script shallowly: the environment (whether `os.chdir` and
`subprocess.Popen` succeed, whether a stdin write or a stdout read raises,
the child's output lines and its return code) is a `World`; a run produces
a `PyResult Bool` (the value returned by `deploy_to_netlify`, or an
uncaught exception) together with the ordered trace of observable events
(console prints, the chdir, the spawn, the stdin writes, the wait).
-/

namespace LineraPoker

/-- Observable events of one run, in program order: a console print
(`eprint s` is the exact text written, including any newline that Python's
`print` appends), the change of working directory, the spawn of the child
process with its argument vector, a write to the child's stdin, and the
blocking wait for the child's termination. -/
inductive Event where
  | eprint (s : String)
  | chdirEv (path : String)
  | spawnEv (c : List String)
  | writeEv (s : String)
  | waitEv
  deriving DecidableEq, Repr

/-- Result of a Python function call: a returned value, or an exception
that escapes the function uncaught. -/
inductive PyResult (α : Type) where
  | ok (a : α)
  | raised
  deriving DecidableEq, Repr

/-- How the whole program terminates: via an uncaught exception
(interpreter traceback), or via `sys.exit` with the given code. -/
inductive Outcome where
  | uncaught
  | exitCode (n : Nat)
  deriving DecidableEq, Repr

/-- The environment of one run. `chdirOk` / `spawnOk`: whether `os.chdir`
and `subprocess.Popen` succeed or raise. `writeFailsAt = some i`: the
write of the i-th input to the child's stdin raises (e.g. a broken pipe);
`readFailsAt = some i`: reading the i-th output line raises.
`outputLines` is the child's combined stdout/stderr as the lines the
iteration over `process.stdout` yields (each normally ends in a newline);
`returncode` is the child's exit code observed by `process.wait()`;
`errMsg` is the rendering `str(e)` of whichever exception fires. -/
structure World where
  chdirOk : Bool
  spawnOk : Bool
  writeFailsAt : Option Nat
  readFailsAt : Option Nat
  outputLines : List String
  returncode : Int
  errMsg : String
  deriving DecidableEq, Repr

/-- The hard-coded working directory of the script (deploy.py line 11). -/
def frontendDir : String := "C:\\Users\\prate\\linera\\linera-poker\\frontend"

/-- The child's argument vector (deploy.py lines 14-18). -/
def cmd : List String := ["npx", "netlify-cli", "deploy", "--prod", "--dir=dist"]

/-- The scripted stdin answers (deploy.py lines 21-24): two empty strings. -/
def inputs : List String := ["", ""]

/-- Python `str.lower()` (ASCII case folding, which is all the script's
needles require). -/
def lowerStr (s : String) : String := String.mk (s.toList.map Char.toLower)

/-- Python's `needle in hay` substring test. -/
def strContains (hay needle : String) : Bool :=
  hay.toList.tails.any (fun t => needle.toList.isPrefixOf t)

/-- The condition of deploy.py line 44:
`'https://' in line.lower() and 'netlify' in line.lower()`. -/
def urlMatch (line : String) : Bool :=
  strContains (lowerStr line) "https://" && strContains (lowerStr line) "netlify"

/-- Python `str.strip()`: drop leading and trailing whitespace. -/
def pyStrip (s : String) : String :=
  String.mk (((s.toList.dropWhile Char.isWhitespace).reverse.dropWhile
    Char.isWhitespace).reverse)

/-- The text printed by deploy.py line 45 (print appends a newline). -/
def foundUrlMsg (line : String) : String :=
  "\n✅ Found URL: " ++ pyStrip line ++ "\n"

/-- The `for inp in inputs` loop (deploy.py lines 37-39): each iteration
writes `inp + '\n'` to the child's stdin; if the write at index `failAt`
raises, the loop stops there with the exception flag set. Returns the
events emitted so far and whether an exception was raised. -/
def writeLoop (failAt : Option Nat) : Nat → List String → List Event × Bool
  | _, [] => ([], false)
  | idx, inp :: rest =>
    if failAt = some idx then
      ([], true)
    else
      let r := writeLoop failAt (idx + 1) rest
      (Event.writeEv (inp ++ "\n") :: r.1, r.2)

/-- The `for line in process.stdout` loop (deploy.py lines 42-45): each
iteration echoes the line verbatim (`print(line, end='')`) and, when
`urlMatch` holds, additionally prints the highlighted confirmation; if
reading the line at index `failAt` raises, the loop stops there with the
exception flag set. -/
def readLoop (failAt : Option Nat) : Nat → List String → List Event × Bool
  | _, [] => ([], false)
  | idx, line :: rest =>
    if failAt = some idx then
      ([], true)
    else
      let confEvs := if urlMatch line then [Event.eprint (foundUrlMsg line)] else []
      let r := readLoop failAt (idx + 1) rest
      (Event.eprint line :: (confEvs ++ r.1), r.2)

/-- The text printed by the `except` handler (deploy.py line 51). -/
def errorText (w : World) : String := "Error: " ++ w.errMsg ++ "\n"

/-- `deploy_to_netlify` (deploy.py lines 6-52). Prints the banner, does
`os.chdir` (outside the try block: a failure there escapes uncaught),
then inside try/except: spawns the child, writes the two inputs, streams
the output, waits, and returns `returncode == 0`; any exception inside
the try block is caught, printed, and turned into `return False`. -/
def deploy_to_netlify (w : World) : PyResult Bool × List Event :=
  let ev0 : List Event := [Event.eprint "Deploying to Netlify...\n"]
  if w.chdirOk = false then
    (PyResult.raised, ev0)
  else
    let ev1 := ev0 ++ [Event.chdirEv frontendDir]
    if w.spawnOk = false then
      (PyResult.ok false, ev1 ++ [Event.eprint (errorText w)])
    else
      let ev2 := ev1 ++ [Event.spawnEv cmd]
      let wr := writeLoop w.writeFailsAt 0 inputs
      if wr.2 then
        (PyResult.ok false, ev2 ++ wr.1 ++ [Event.eprint (errorText w)])
      else
        let rd := readLoop w.readFailsAt 0 w.outputLines
        if rd.2 then
          (PyResult.ok false, ev2 ++ wr.1 ++ rd.1 ++ [Event.eprint (errorText w)])
        else
          (PyResult.ok (w.returncode == 0), ev2 ++ wr.1 ++ rd.1 ++ [Event.waitEv])

/-- The `__main__` block (deploy.py lines 54-56):
`sys.exit(0 if success else 1)`, or the uncaught exception escaping. -/
def mainProg (w : World) : Outcome :=
  match (deploy_to_netlify w).1 with
  | PyResult.raised => Outcome.uncaught
  | PyResult.ok success => Outcome.exitCode (if success then 0 else 1)

/-- Spec-side predicate: `hay` contains `needle` case-insensitively
(both sides lowered, following the spec's words). -/
def containsCI (hay needle : String) : Bool :=
  strContains (lowerStr hay) (lowerStr needle)

/-- The events one output line contributes when no exception occurs:
the verbatim echo, followed by the confirmation when the line matches. -/
def lineEvents (line : String) : List Event :=
  Event.eprint line :: (if urlMatch line then [Event.eprint (foundUrlMsg line)] else [])

/-- The stdin writes recorded in a trace, in order. -/
def writesOf (evs : List Event) : List String :=
  evs.filterMap (fun e =>
    match e with
    | Event.writeEv s => some s
    | _ => none)

/-- Whether a failure index inside `[idx, idx + n)` is designated, i.e.
whether a loop over `n` items starting at index `idx` raises. -/
def hits (failAt : Option Nat) (idx n : Nat) : Bool :=
  match failAt with
  | none => false
  | some i => decide (idx ≤ i ∧ i < idx + n)

lemma writeLoop_no_hit (failAt : Option Nat) (l : List String) : ∀ (idx : Nat),
    hits failAt idx l.length = false →
    writeLoop failAt idx l = (l.map (fun s => Event.writeEv (s ++ "\n")), false) := by
  induction l with
  | nil => intro idx _; rfl
  | cons a t ih =>
    intro idx h
    cases failAt with
    | none =>
      rw [writeLoop, if_neg (by simp)]
      rw [ih (idx + 1) rfl]
      simp
    | some i =>
      simp only [hits, decide_eq_false_iff_not, List.length_cons] at h
      rw [writeLoop, if_neg (by simp only [Option.some.injEq]; omega)]
      rw [ih (idx + 1) (by simp only [hits, decide_eq_false_iff_not]; omega)]
      simp

lemma readLoop_no_hit (failAt : Option Nat) (l : List String) : ∀ (idx : Nat),
    hits failAt idx l.length = false →
    readLoop failAt idx l = (l.flatMap lineEvents, false) := by
  induction l with
  | nil => intro idx _; rfl
  | cons a t ih =>
    intro idx h
    cases failAt with
    | none =>
      rw [readLoop, if_neg (by simp)]
      rw [ih (idx + 1) rfl]
      simp [lineEvents]
    | some i =>
      simp only [hits, decide_eq_false_iff_not, List.length_cons] at h
      rw [readLoop, if_neg (by simp only [Option.some.injEq]; omega)]
      rw [ih (idx + 1) (by simp only [hits, decide_eq_false_iff_not]; omega)]
      simp [lineEvents]

lemma writeLoop_raised (failAt : Option Nat) (l : List String) : ∀ (idx : Nat),
    (writeLoop failAt idx l).2 = hits failAt idx l.length := by
  induction l with
  | nil =>
    intro idx
    cases failAt with
    | none => rfl
    | some i => simp [writeLoop, hits]
  | cons a t ih =>
    intro idx
    cases failAt with
    | none => rw [writeLoop, if_neg (by simp)]; exact ih (idx + 1)
    | some i =>
      by_cases hc : i = idx
      · subst hc; simp [writeLoop, hits]
      · rw [writeLoop, if_neg (by simp only [Option.some.injEq]; omega)]
        show (writeLoop (some i) (idx + 1) t).2 = _
        rw [ih (idx + 1)]
        simp only [hits, List.length_cons, decide_eq_decide]
        omega

lemma readLoop_raised (failAt : Option Nat) (l : List String) : ∀ (idx : Nat),
    (readLoop failAt idx l).2 = hits failAt idx l.length := by
  induction l with
  | nil =>
    intro idx
    cases failAt with
    | none => rfl
    | some i => simp [readLoop, hits]
  | cons a t ih =>
    intro idx
    cases failAt with
    | none => rw [readLoop, if_neg (by simp)]; exact ih (idx + 1)
    | some i =>
      by_cases hc : i = idx
      · subst hc; simp [readLoop, hits]
      · rw [readLoop, if_neg (by simp only [Option.some.injEq]; omega)]
        show (readLoop (some i) (idx + 1) t).2 = _
        rw [ih (idx + 1)]
        simp only [hits, List.length_cons, decide_eq_decide]
        omega

lemma waitEv_not_mem_writeLoop (failAt : Option Nat) (l : List String) : ∀ (idx : Nat),
    Event.waitEv ∉ (writeLoop failAt idx l).1 := by
  induction l with
  | nil => intro idx; simp [writeLoop]
  | cons a t ih =>
    intro idx
    rw [writeLoop]
    split
    · simp
    · simpa using ih (idx + 1)

lemma waitEv_not_mem_readLoop (failAt : Option Nat) (l : List String) : ∀ (idx : Nat),
    Event.waitEv ∉ (readLoop failAt idx l).1 := by
  induction l with
  | nil => intro idx; simp [readLoop]
  | cons a t ih =>
    intro idx
    rw [readLoop]
    split
    · simp
    · intro hmem
      simp only [List.mem_cons, List.mem_append] at hmem
      rcases hmem with h | h | h
      · exact Event.noConfusion h
      · revert h; split <;> simp
      · exact ih (idx + 1) h

lemma writesOf_readLoop (failAt : Option Nat) (l : List String) : ∀ (idx : Nat),
    writesOf (readLoop failAt idx l).1 = [] := by
  induction l with
  | nil => intro idx; simp [readLoop, writesOf]
  | cons a t ih =>
    intro idx
    rw [readLoop]
    split
    · simp [writesOf]
    · show writesOf (Event.eprint a :: _) = []
      simp only [writesOf, List.filterMap_cons, List.filterMap_append] at ih ⊢
      rw [ih (idx + 1)]
      split <;> simp [writesOf]

/-- A run whose trace records the blocking wait is exactly a run in which
chdir, spawn, the writes and the reads all succeeded; such a run returns
`returncode == 0`. -/
lemma deploy_wait (w : World) (h : Event.waitEv ∈ (deploy_to_netlify w).2) :
    w.chdirOk = true ∧ w.spawnOk = true ∧
    (writeLoop w.writeFailsAt 0 inputs).2 = false ∧
    (readLoop w.readFailsAt 0 w.outputLines).2 = false ∧
    (deploy_to_netlify w).1 = PyResult.ok (w.returncode == 0) := by
  have hw := waitEv_not_mem_writeLoop w.writeFailsAt inputs 0
  have hr := waitEv_not_mem_readLoop w.readFailsAt w.outputLines 0
  by_cases h1 : w.chdirOk = false
  · exfalso; simp [deploy_to_netlify, h1] at h
  by_cases h2 : w.spawnOk = false
  · exfalso; simp [deploy_to_netlify, h1, h2] at h
  by_cases h3 : (writeLoop w.writeFailsAt 0 inputs).2 = true
  · exfalso; simp [deploy_to_netlify, h1, h2, h3, hw] at h
  by_cases h4 : (readLoop w.readFailsAt 0 w.outputLines).2 = true
  · exfalso; simp [deploy_to_netlify, h1, h2, h3, h4, hw, hr] at h
  exact ⟨by simpa using h1, by simpa using h2, by simpa using h3, by simpa using h4,
    by simp [deploy_to_netlify, h1, h2, h3, h4]⟩

lemma urlMatch_eq_containsCI (line : String) :
    urlMatch line = (containsCI line "https://" && containsCI line "netlify") := by
  have h1 : lowerStr "https://" = "https://" := by decide
  have h2 : lowerStr "netlify" = "netlify" := by decide
  rw [containsCI, containsCI, h1, h2, urlMatch]

/-- C1: in every run in which the child is spawned and the program observes
its termination (the trace records the blocking wait), the program's exit
code is 0 iff the child's exit code is 0, and 1 for every non-zero child
exit code, with no distinction between different non-zero values. -/
theorem C1_exit_code_mapping (w : World)
    (h : Event.waitEv ∈ (deploy_to_netlify w).2) :
    mainProg w = Outcome.exitCode (if w.returncode = 0 then 0 else 1) := by
  obtain ⟨_, _, _, _, h5⟩ := deploy_wait w h
  rw [mainProg, h5]
  by_cases hr : w.returncode = 0 <;> simp [hr]

theorem C1_witness :
    Event.waitEv ∈ (deploy_to_netlify ⟨true, true, none, none, ["done\n"], 7, ""⟩).2 ∧
    mainProg ⟨true, true, none, none, ["done\n"], 7, ""⟩ =
      Outcome.exitCode (if (7 : Int) = 0 then 0 else 1) :=
  ⟨by decide, C1_exit_code_mapping ⟨true, true, none, none, ["done\n"], 7, ""⟩ (by decide)⟩

/-- C2: if spawning the child raises, the handler catches it, prints the
error text, `deploy_to_netlify` returns `False`, and the program exits 1. -/
theorem C2_spawn_exception (w : World) (h1 : w.chdirOk = true)
    (h2 : w.spawnOk = false) :
    deploy_to_netlify w =
      (PyResult.ok false,
        [Event.eprint "Deploying to Netlify...\n", Event.chdirEv frontendDir,
          Event.eprint (errorText w)]) ∧
    mainProg w = Outcome.exitCode 1 := by
  constructor
  · simp [deploy_to_netlify, h1, h2]
  · simp [mainProg, deploy_to_netlify, h1, h2]

theorem C2_witness :
    deploy_to_netlify ⟨true, false, none, none, [], 0, "npx not found"⟩ =
      (PyResult.ok false,
        [Event.eprint "Deploying to Netlify...\n", Event.chdirEv frontendDir,
          Event.eprint (errorText ⟨true, false, none, none, [], 0, "npx not found"⟩)]) ∧
    mainProg ⟨true, false, none, none, [], 0, "npx not found"⟩ = Outcome.exitCode 1 :=
  C2_spawn_exception ⟨true, false, none, none, [], 0, "npx not found"⟩ rfl rfl

/-- C3 counterexample: a run in which the child is spawned (the spawn event
is in the trace) but the first stdin write raises, so no input at all is
written — refuting "exactly two blank-line inputs are written in every run
in which the child is spawned". -/
theorem C3_counterexample :
    Event.spawnEv cmd ∈
      (deploy_to_netlify ⟨true, true, some 0, none, [], 0, "broken pipe"⟩).2 ∧
    writesOf (deploy_to_netlify ⟨true, true, some 0, none, [], 0, "broken pipe"⟩).2 = [] := by
  decide

/-- C3 (amended): in every run in which the child is spawned and no
exception is raised while writing, exactly two blank-line inputs (`"\n"`
each, an empty string plus a newline) are written to the child's stdin, in
order, regardless of the child's output and of any failure while reading. -/
theorem C3_two_blank_line_writes (w : World) (h1 : w.chdirOk = true)
    (h2 : w.spawnOk = true) (h3 : w.writeFailsAt = none) :
    writesOf (deploy_to_netlify w).2 = ["\n", "\n"] := by
  have hwl : writeLoop w.writeFailsAt 0 inputs =
      ([Event.writeEv "\n", Event.writeEv "\n"], false) := by
    rw [h3]; rfl
  have hro := writesOf_readLoop w.readFailsAt w.outputLines 0
  simp only [writesOf] at hro ⊢
  by_cases h4 : (readLoop w.readFailsAt 0 w.outputLines).2 = true <;>
    simp [deploy_to_netlify, h1, h2, hwl, h4, hro]

theorem C3_witness :
    (⟨true, true, none, some 1, ["https://a.netlify.app\n", "b\n"], 1, "x"⟩ : World).writeFailsAt
      = none ∧
    writesOf (deploy_to_netlify
      ⟨true, true, none, some 1, ["https://a.netlify.app\n", "b\n"], 1, "x"⟩).2 = ["\n", "\n"] :=
  ⟨rfl, C3_two_blank_line_writes
    ⟨true, true, none, some 1, ["https://a.netlify.app\n", "b\n"], 1, "x"⟩ rfl rfl rfl⟩

/-- C4: processing one output line (no exception) echoes the line and
prints the confirmation exactly when the line contains both "https://" and
"netlify" case-insensitively; a line containing neither gets no
confirmation. -/
theorem C4_confirmation_iff_https_and_netlify (line : String) :
    (readLoop none 0 [line]).1 =
      Event.eprint line ::
        (if containsCI line "https://" && containsCI line "netlify" then
          [Event.eprint (foundUrlMsg line)]
        else []) := by
  simp [readLoop, urlMatch_eq_containsCI]

/-- C5 counterexample: the line "http://netlify.app\n" contains the URL
marker "http://" and the provider's name (case-insensitively), yet the code
— which tests for the literal substring "https://" — prints no
confirmation, only the echo. -/
theorem C5_counterexample :
    containsCI "http://netlify.app\n" "http://" = true ∧
    containsCI "http://netlify.app\n" "netlify" = true ∧
    (readLoop none 0 ["http://netlify.app\n"]).1 =
      [Event.eprint "http://netlify.app\n"] := by
  decide

/-- C5 (amended): the confirmation requires the literal substring
"https://" (case-insensitively); a line without it — in particular one with
only "http://" — is echoed with no confirmation, whatever else it contains. -/
theorem C5_no_confirmation_without_https (line : String)
    (h : containsCI line "https://" = false) :
    (readLoop none 0 [line]).1 = [Event.eprint line] := by
  have hm : urlMatch line = false := by
    rw [urlMatch_eq_containsCI, h, Bool.false_and]
  simp [readLoop, hm]

theorem C5_witness :
    containsCI "http://netlify.app\n" "https://" = false ∧
    (readLoop none 0 ["http://netlify.app\n"]).1 =
      [Event.eprint "http://netlify.app\n"] :=
  ⟨by decide, C5_no_confirmation_without_https "http://netlify.app\n" (by decide)⟩

/-- C6: the URL-detection branch has no effect on the result: any two runs
that reach the blocking wait and whose children exit with the same return
code produce the same return value of `deploy_to_netlify`, however their
output lines differ (including whether any line matched the URL pattern). -/
theorem C6_output_noninterference (w1 w2 : World)
    (h1 : Event.waitEv ∈ (deploy_to_netlify w1).2)
    (h2 : Event.waitEv ∈ (deploy_to_netlify w2).2)
    (h3 : w1.returncode = w2.returncode) :
    (deploy_to_netlify w1).1 = (deploy_to_netlify w2).1 := by
  obtain ⟨_, _, _, _, e1⟩ := deploy_wait w1 h1
  obtain ⟨_, _, _, _, e2⟩ := deploy_wait w2 h2
  rw [e1, e2, h3]

theorem C6_witness :
    Event.waitEv ∈
      (deploy_to_netlify ⟨true, true, none, none, ["https://a.netlify.app\n"], 0, ""⟩).2 ∧
    Event.waitEv ∈
      (deploy_to_netlify ⟨true, true, none, none, ["no url here\n", "other\n"], 0, ""⟩).2 ∧
    (deploy_to_netlify ⟨true, true, none, none, ["https://a.netlify.app\n"], 0, ""⟩).1 =
      (deploy_to_netlify ⟨true, true, none, none, ["no url here\n", "other\n"], 0, ""⟩).1 :=
  ⟨by decide, by decide,
    C6_output_noninterference
      ⟨true, true, none, none, ["https://a.netlify.app\n"], 0, ""⟩
      ⟨true, true, none, none, ["no url here\n", "other\n"], 0, ""⟩
      (by decide) (by decide) rfl⟩

/-- C7: a run with no failure follows the single linear order — banner,
chdir, spawn, the two stdin writes, the per-line output events, and only
then the blocking wait — so the child is spawned before its stdin is
written and before its stdout is read, and both inputs are written before
any output line is read. -/
theorem C7_linear_event_order (w : World) (h1 : w.chdirOk = true)
    (h2 : w.spawnOk = true) (h3 : hits w.writeFailsAt 0 inputs.length = false)
    (h4 : hits w.readFailsAt 0 w.outputLines.length = false) :
    (deploy_to_netlify w).2 =
      [Event.eprint "Deploying to Netlify...\n", Event.chdirEv frontendDir,
        Event.spawnEv cmd]
      ++ inputs.map (fun s => Event.writeEv (s ++ "\n"))
      ++ w.outputLines.flatMap lineEvents
      ++ [Event.waitEv] := by
  have hwl := writeLoop_no_hit w.writeFailsAt inputs 0 h3
  have hrl := readLoop_no_hit w.readFailsAt w.outputLines 0 h4
  simp [deploy_to_netlify, h1, h2, hwl, hrl]

theorem C7_witness :
    hits (none : Option Nat) 0 inputs.length = false ∧
    (deploy_to_netlify ⟨true, true, none, none, ["out\n"], 0, ""⟩).2 =
      [Event.eprint "Deploying to Netlify...\n", Event.chdirEv frontendDir,
        Event.spawnEv cmd]
      ++ inputs.map (fun s => Event.writeEv (s ++ "\n"))
      ++ (["out\n"] : List String).flatMap lineEvents
      ++ [Event.waitEv] :=
  ⟨rfl, C7_linear_event_order ⟨true, true, none, none, ["out\n"], 0, ""⟩ rfl rfl rfl rfl⟩

/-- C8: if `os.chdir` fails, the exception is not caught (the chdir sits
before the try block): the trace is just the banner — no "Error:" print —
and the program terminates via the uncaught exception, not via the
boolean-failure path that exits 1. -/
theorem C8_chdir_failure_uncaught (w : World) (h : w.chdirOk = false) :
    deploy_to_netlify w =
      (PyResult.raised, [Event.eprint "Deploying to Netlify...\n"]) ∧
    mainProg w = Outcome.uncaught := by
  constructor
  · simp [deploy_to_netlify, h]
  · simp [mainProg, deploy_to_netlify, h]

theorem C8_witness :
    deploy_to_netlify ⟨false, true, none, none, [], 0, "no such directory"⟩ =
      (PyResult.raised, [Event.eprint "Deploying to Netlify...\n"]) ∧
    mainProg ⟨false, true, none, none, [], 0, "no such directory"⟩ = Outcome.uncaught :=
  C8_chdir_failure_uncaught ⟨false, true, none, none, [], 0, "no such directory"⟩ rfl

/-- C9: if an exception is raised after the spawn — while writing the
inputs or reading the output — `deploy_to_netlify` returns `False` and the
program exits 1, whatever the child's return code (including 0): the
caught-exception path never reports success. -/
theorem C9_post_spawn_exception_fails (w : World) (h1 : w.chdirOk = true)
    (h2 : w.spawnOk = true)
    (h3 : hits w.writeFailsAt 0 inputs.length = true ∨
          hits w.readFailsAt 0 w.outputLines.length = true) :
    (deploy_to_netlify w).1 = PyResult.ok false ∧
    mainProg w = Outcome.exitCode 1 := by
  by_cases hw : hits w.writeFailsAt 0 inputs.length = true
  · have hw' : (writeLoop w.writeFailsAt 0 inputs).2 = true := by
      rw [writeLoop_raised]; exact hw
    constructor
    · simp [deploy_to_netlify, h1, h2, hw']
    · simp [mainProg, deploy_to_netlify, h1, h2, hw']
  · have hw' : (writeLoop w.writeFailsAt 0 inputs).2 = false := by
      rw [writeLoop_raised]
      simp only [Bool.not_eq_true] at hw
      exact hw
    have hr' : (readLoop w.readFailsAt 0 w.outputLines).2 = true := by
      rw [readLoop_raised]; exact h3.resolve_left hw
    constructor
    · simp [deploy_to_netlify, h1, h2, hw', hr']
    · simp [mainProg, deploy_to_netlify, h1, h2, hw', hr']

theorem C9_witness :
    hits (some 0 : Option Nat) 0 (["line\n"] : List String).length = true ∧
    (deploy_to_netlify ⟨true, true, none, some 0, ["line\n"], 0, "io error"⟩).1 =
      PyResult.ok false ∧
    mainProg ⟨true, true, none, some 0, ["line\n"], 0, "io error"⟩ = Outcome.exitCode 1 :=
  ⟨by decide,
    C9_post_spawn_exception_fails ⟨true, true, none, some 0, ["line\n"], 0, "io error"⟩
      rfl rfl (Or.inr (by decide))⟩

/-- C10: with no read failure, every output line is echoed unconditionally,
and each matching line gets its own confirmation printed right after its
echo — one confirmation per matching line, not only for the first. -/
theorem C10_echo_all_confirm_each (lines : List String) :
    readLoop none 0 lines = (lines.flatMap lineEvents, false) :=
  readLoop_no_hit none lines 0 rfl

end LineraPoker
